import Mathlib

/-!
Shallow embedding of `turtle_brick/run_turtle.py` (class `RunTurtle`).

Python floats are modelled as real numbers for the kinematic state (the
node's own mutable fields), and as a small enriched type `Fl` (finite
rational or a non-finite value) for the coordinates carried by inbound
messages, so that the handling of non-finite inputs can be stated.
Publishing is modelled as a list of emitted events; each callback returns
the successor state together with the events it publishes, in source order.
-/

namespace TurtleBrick

/-- Model of a Python float as carried by an inbound ROS message: either a
finite value (modelled as a rational) or one of the IEEE non-finite values. -/
inductive Fl where
  | finite (q : ℚ)
  | nan
  | inf
  | ninf
deriving DecidableEq, Repr

/-- Whether a message-carried float is finite. -/
def Fl.isFinite : Fl → Bool
  | .finite _ => true
  | _ => false

/-- Model of a `geometry_msgs/PoseStamped` goal message: the position fields
consulted nowhere and stored verbatim by `update_goalpose`. -/
structure PoseStampedMsg where
  x : Fl := .finite 0
  y : Fl := .finite 0
deriving DecidableEq, Repr

/-- Model of a `turtlesim/Pose` message stored verbatim by `update_turtlepose`. -/
structure TurtlePoseMsg where
  x : Fl := .finite 0
  y : Fl := .finite 0
  theta : Fl := .finite 0
deriving DecidableEq, Repr

/-- Model of a `turtle_brick_interfaces/Tilt` message. -/
structure TiltMsg where
  tilt_angle : ℝ

/-- Quaternion message fields, ROS order (x, y, z, w); the message default is
the identity rotation (0, 0, 0, 1). -/
structure QuatMsg where
  qx : ℝ := 0
  qy : ℝ := 0
  qz : ℝ := 0
  qw : ℝ := 1

/-- Modelled from the spec: the helper `angle_axis_to_quaternion` from
`turtle_brick/quaternion.py` is imported by `run_turtle.py` but its source is
not in the repository snapshot.  Per the spec's orientation construction
contract, given an angle `a` and an axis `v` it returns the axis-angle
quaternion `q = (cos(a/2), sin(a/2) * v)`. -/
noncomputable def angle_axis_to_quaternion (a : ℝ) (v : ℝ × ℝ × ℝ) : QuatMsg :=
  { qx := Real.sin (a / 2) * v.1
    qy := Real.sin (a / 2) * v.2.1
    qz := Real.sin (a / 2) * v.2.2
    qw := Real.cos (a / 2) }

/-- Model of a `geometry_msgs/TransformStamped`: frames, translation and
rotation (the message defaults to zero translation and identity rotation,
which `__init__` relies on for the static transform). -/
structure TransformMsg where
  frame_id : String
  child_frame_id : String
  tx : ℝ := 0
  ty : ℝ := 0
  tz : ℝ := 0
  rotation : QuatMsg := {}

/-- Model of a `sensor_msgs/JointState` message. -/
structure JointStateMsg where
  name : List String
  position : List ℝ

/-- Model of the fields of `nav_msgs/Odometry` that `timer_callback` sets. -/
structure OdometryMsg where
  child_frame_id : String
  px : ℝ
  py : ℝ
  pz : ℝ
  orientation : QuatMsg
  twist_linear_x : ℝ
  twist_linear_y : ℝ
  twist_angular_z : ℝ

/-- Model of a `geometry_msgs/Twist` message. -/
structure TwistMsg where
  linear_x : ℝ
  linear_y : ℝ
  linear_z : ℝ
  angular_x : ℝ
  angular_y : ℝ
  angular_z : ℝ

/-- Source `turtle_twist`: builds a 2D twist from forward velocities and an
angular velocity. -/
noncomputable def turtle_twist (xdot ydot omega : ℝ) : TwistMsg :=
  { linear_x := xdot, linear_y := ydot, linear_z := 0.0
    angular_x := 0.0, angular_y := 0.0, angular_z := omega }

/-- An event emitted by the node: one published message or one log line. -/
inductive Ev where
  | staticTF (t : TransformMsg)
  | dynamicTF (t : TransformMsg)
  | jointState (m : JointStateMsg)
  | odom (m : OdometryMsg)
  | cmdVel (m : TwistMsg)
  | logInfo (s : String)
  | logWarn (s : String)

/-- Whether an event is a static-transform broadcast. -/
def Ev.isStaticTF : Ev → Bool
  | .staticTF _ => true
  | _ => false

/-- The mutable attributes of the `RunTurtle` node object. -/
structure RunTurtleState where
  wheel_pos : ℝ
  tip_pos : ℝ
  tip : Bool
  x : ℝ
  y : ℝ
  z : ℝ
  theta : ℝ
  world_odom_x : ℝ
  world_odom_y : ℝ
  world_odom_z : ℝ
  wheel_radius : ℝ
  world_targetX : ℝ
  world_targetY : ℝ
  targetX : ℝ
  targetY : ℝ
  wheel_omg : ℝ
  swivel_omg : ℝ
  vx : ℝ
  vy : ℝ
  frequency : ℝ
  dt : ℝ
  goalpose : PoseStampedMsg
  pose : TurtlePoseMsg
  turtlepose : Option TurtlePoseMsg

/-- Python `math.atan2 (y, x)` on real arguments, following the IEEE
convention the C library implements: `atan2 0 0 = 0`. -/
noncomputable def atan2 (y x : ℝ) : ℝ :=
  if 0 < x then Real.arctan (y / x)
  else if x < 0 then
    if 0 ≤ y then Real.arctan (y / x) + Real.pi
    else Real.arctan (y / x) - Real.pi
  else
    if 0 < y then Real.pi / 2
    else if y < 0 then -(Real.pi / 2)
    else 0

/-- The static transform built and broadcast in `__init__`: frames world to
odom, translation (5.55, 5.55, 0), rotation left at the message default. -/
noncomputable def world_odom_tf : TransformMsg :=
  { frame_id := "world", child_frame_id := "odom"
    tx := 5.55, ty := 5.55, tz := 0 }

/-- The node state as `__init__` leaves it, field by field as the source
assigns them. -/
noncomputable def initState : RunTurtleState :=
  { wheel_pos := 0
    tip_pos := 0
    tip := false
    x := 0
    y := 0
    z := 0
    theta := 0
    world_odom_x := 5.55
    world_odom_y := 5.55
    world_odom_z := 0
    wheel_radius := 0.2 * 1.618
    world_targetX := 9
    world_targetY := 7
    targetX := 9 - 5.55
    targetY := 7 - 5.55
    wheel_omg := 0.8
    swivel_omg := 0.0
    vx := 0.2 * 1.618 * 0.8 * Real.cos 0
    vy := 0.2 * 1.618 * 0.8 * Real.sin 0
    frequency := 100.0
    dt := 1 / 100.0
    goalpose := {}
    pose := {}
    turtlepose := none }

/-- The events `__init__` emits: the one static broadcast and its log line. -/
noncomputable def initEvents : List Ev :=
  [Ev.staticTF world_odom_tf, Ev.logInfo "Static Transform: world->odom"]

/-- Source `timer_callback`, in statement order: advance the wheel
accumulator twice, integrate the position with the stored velocities,
recompute heading and velocities, then publish the joint state, the dynamic
odom-to-base_link transform, the odometry message and the velocity command.
Returns the mutated node state and the events published, in order. -/
noncomputable def timer_callback (s : RunTurtleState) : RunTurtleState × List Ev :=
  let wheel_pos1 := s.wheel_pos + s.wheel_omg * s.dt
  let wheel_pos2 := wheel_pos1 + s.wheel_omg * s.dt
  let x1 := s.x + s.vx * s.dt
  let y1 := s.y + s.vy * s.dt
  let theta1 := atan2 (s.targetY - y1) (s.targetX - x1)
  let vx1 := s.wheel_radius * s.wheel_omg * Real.cos theta1
  let vy1 := s.wheel_radius * s.wheel_omg * Real.sin theta1
  let s1 := { s with wheel_pos := wheel_pos2, x := x1, y := y1
                     theta := theta1, vx := vx1, vy := vy1 }
  let joints_states_msg : JointStateMsg :=
    { name := ["wheel_axle", "swivel", "tip"]
      position := [wheel_pos2, theta1, s.tip_pos] }
  let odom_base : TransformMsg :=
    { frame_id := "odom", child_frame_id := "base_link"
      tx := x1, ty := y1
      rotation := angle_axis_to_quaternion 0 (0, 0, 1) }
  let odometry_msg : OdometryMsg :=
    { child_frame_id := "base_link"
      px := x1, py := y1, pz := s.z
      orientation := angle_axis_to_quaternion 0 (0, 0, 1)
      twist_linear_x := vx1, twist_linear_y := vy1
      twist_angular_z := s.swivel_omg }
  let cmdvel_msg := turtle_twist vx1 vy1 s.swivel_omg
  (s1, [Ev.jointState joints_states_msg, Ev.dynamicTF odom_base,
        Ev.odom odometry_msg, Ev.cmdVel cmdvel_msg])

/-- Source `update_goalpose`: stores the message into `self.goalpose`
unconditionally; publishes and logs nothing. -/
def update_goalpose (s : RunTurtleState) (data : PoseStampedMsg) :
    RunTurtleState × List Ev :=
  ({ s with goalpose := data }, [])

/-- Source `update_turtlepose`: stores the message into `self.turtlepose`
unconditionally; publishes and logs nothing. -/
def update_turtlepose (s : RunTurtleState) (data : TurtlePoseMsg) :
    RunTurtleState × List Ev :=
  ({ s with turtlepose := some data }, [])

/-- Source `update_tilt`: copies `data.tilt_angle` into `self.tip_pos`. -/
def update_tilt (s : RunTurtleState) (data : TiltMsg) :
    RunTurtleState × List Ev :=
  ({ s with tip_pos := data.tilt_angle }, [])

/-- One externally triggered callback invocation: a timer tick or one of the
three subscription handlers with its message. -/
inductive Step where
  | tick
  | goal (d : PoseStampedMsg)
  | turtle (d : TurtlePoseMsg)
  | tilt (d : TiltMsg)

/-- Dispatch one step to the corresponding callback. -/
noncomputable def stepRun (st : Step) (s : RunTurtleState) :
    RunTurtleState × List Ev :=
  match st with
  | .tick => timer_callback s
  | .goal d => update_goalpose s d
  | .turtle d => update_turtlepose s d
  | .tilt d => update_tilt s d

/-- Run a list of steps from a state, accumulating the published events. -/
noncomputable def runFrom (s : RunTurtleState) : List Step → RunTurtleState × List Ev
  | [] => (s, [])
  | st :: l =>
    let p := stepRun st s
    let q := runFrom p.1 l
    (q.1, p.2 ++ q.2)

/-- A whole execution of the node: `__init__` followed by an arbitrary
interleaving of ticks and subscription callbacks.  Returns the final state
and the full event trace. -/
noncomputable def run (l : List Step) : RunTurtleState × List Ev :=
  ((runFrom initState l).1, initEvents ++ (runFrom initState l).2)

/-- The node state an execution reaches. -/
noncomputable def runState (l : List Step) : RunTurtleState := (run l).1

/-- The event trace an execution publishes. -/
noncomputable def runTrace (l : List Step) : List Ev := (run l).2

/-- On the half-plane of positive x, `atan2` is the arctangent of the slope. -/
lemma atan2_of_x_pos {y x : ℝ} (hx : 0 < x) : atan2 y x = Real.arctan (y / x) := by
  simp [atan2, hx]

/-- The degenerate case: both arguments zero gives zero. -/
lemma atan2_zero_zero : atan2 0 0 = 0 := by
  simp [atan2]

/-- Fields that no callback ever assigns are preserved by every step. -/
lemma stepRun_const (st : Step) (s : RunTurtleState) :
    (stepRun st s).1.wheel_omg = s.wheel_omg ∧
    (stepRun st s).1.dt = s.dt ∧
    (stepRun st s).1.wheel_radius = s.wheel_radius ∧
    (stepRun st s).1.targetX = s.targetX ∧
    (stepRun st s).1.targetY = s.targetY ∧
    (stepRun st s).1.swivel_omg = s.swivel_omg ∧
    (stepRun st s).1.world_odom_x = s.world_odom_x ∧
    (stepRun st s).1.world_odom_y = s.world_odom_y ∧
    (stepRun st s).1.world_odom_z = s.world_odom_z ∧
    (stepRun st s).1.z = s.z := by
  cases st <;>
    simp [stepRun, timer_callback, update_goalpose, update_turtlepose, update_tilt]

/-- Fields that no callback ever assigns are preserved by whole runs. -/
lemma runFrom_const (l : List Step) (s : RunTurtleState) :
    (runFrom s l).1.wheel_omg = s.wheel_omg ∧
    (runFrom s l).1.dt = s.dt ∧
    (runFrom s l).1.wheel_radius = s.wheel_radius ∧
    (runFrom s l).1.targetX = s.targetX ∧
    (runFrom s l).1.targetY = s.targetY ∧
    (runFrom s l).1.swivel_omg = s.swivel_omg ∧
    (runFrom s l).1.world_odom_x = s.world_odom_x ∧
    (runFrom s l).1.world_odom_y = s.world_odom_y ∧
    (runFrom s l).1.world_odom_z = s.world_odom_z ∧
    (runFrom s l).1.z = s.z := by
  induction l generalizing s with
  | nil => simp [runFrom]
  | cons st l ih =>
    have h1 := stepRun_const st s
    have h2 := ih (stepRun st s).1
    simp only [runFrom]
    exact ⟨h2.1.trans h1.1, h2.2.1.trans h1.2.1, h2.2.2.1.trans h1.2.2.1,
      h2.2.2.2.1.trans h1.2.2.2.1, h2.2.2.2.2.1.trans h1.2.2.2.2.1,
      h2.2.2.2.2.2.1.trans h1.2.2.2.2.2.1,
      h2.2.2.2.2.2.2.1.trans h1.2.2.2.2.2.2.1,
      h2.2.2.2.2.2.2.2.1.trans h1.2.2.2.2.2.2.2.1,
      h2.2.2.2.2.2.2.2.2.1.trans h1.2.2.2.2.2.2.2.2.1,
      h2.2.2.2.2.2.2.2.2.2.trans h1.2.2.2.2.2.2.2.2.2⟩

/-- Running an appended list is running the pieces in sequence. -/
lemma runFrom_append (l l' : List Step) (s : RunTurtleState) :
    runFrom s (l ++ l') =
      ((runFrom (runFrom s l).1 l').1,
        (runFrom s l).2 ++ (runFrom (runFrom s l).1 l').2) := by
  induction l generalizing s with
  | nil => simp [runFrom]
  | cons st l ih =>
    simp only [List.cons_append, runFrom, List.append_eq, ih, List.append_assoc]

/-- C1: at every tick, after the position integration step, the heading is
recomputed fresh as atan2 of (goal minus current position); it is the value
published as the swivel joint, and when the goal coincides exactly with the
post-integration position the result is 0 by the atan2 0 0 convention (the
model is a total function, so no exception is raised). -/
theorem C1_heading_recomputed (s : RunTurtleState) :
    (timer_callback s).1.theta =
      atan2 (s.targetY - (s.y + s.vy * s.dt)) (s.targetX - (s.x + s.vx * s.dt)) ∧
    (timer_callback s).2.head? = some (Ev.jointState
      { name := ["wheel_axle", "swivel", "tip"]
        position := [(timer_callback s).1.wheel_pos, (timer_callback s).1.theta,
                     s.tip_pos] }) ∧
    (s.targetX = s.x + s.vx * s.dt → s.targetY = s.y + s.vy * s.dt →
      (timer_callback s).1.theta = 0) := by
  refine ⟨by simp [timer_callback], by simp [timer_callback], ?_⟩
  intro hx hy
  have h : (timer_callback s).1.theta =
      atan2 (s.targetY - (s.y + s.vy * s.dt)) (s.targetX - (s.x + s.vx * s.dt)) := by
    simp [timer_callback]
  rw [h, ← hx, ← hy, sub_self, sub_self, atan2_zero_zero]

/-- Witness for C1 at a state whose goal coincides with the post-integration
position: the computed heading is 0. -/
theorem C1_heading_recomputed_witness :
    (timer_callback { initState with x := 3.45, y := 1.45, vx := 0, vy := 0 }).1.theta
      = 0 := by
  have h := C1_heading_recomputed { initState with x := 3.45, y := 1.45, vx := 0, vy := 0 }
  refine h.2.2 ?_ ?_
  · simp [initState]; norm_num
  · simp [initState]; norm_num

/-- C3: within each tick the position update precedes the heading refresh:
x and y advance by the velocities stored at the previous tick, the new
heading is the atan2 of the goal minus the already-advanced position, and
only then are the stored velocities recomputed from the new heading —
a one-step lag between heading and the velocity used for integration. -/
theorem C3_position_before_heading (s : RunTurtleState) :
    (timer_callback s).1.x = s.x + s.vx * s.dt ∧
    (timer_callback s).1.y = s.y + s.vy * s.dt ∧
    (timer_callback s).1.theta =
      atan2 (s.targetY - (s.y + s.vy * s.dt)) (s.targetX - (s.x + s.vx * s.dt)) ∧
    (timer_callback s).1.vx =
      s.wheel_radius * s.wheel_omg * Real.cos ((timer_callback s).1.theta) ∧
    (timer_callback s).1.vy =
      s.wheel_radius * s.wheel_omg * Real.sin ((timer_callback s).1.theta) := by
  simp [timer_callback]

/-- Running a single step from a state is that step's callback. -/
lemma runFrom_singleton (st : Step) (s : RunTurtleState) :
    (runFrom s [st]).1 = (stepRun st s).1 := by
  simp [runFrom]

/-- Appending a step to an execution applies that step's callback to the
reached state. -/
lemma runState_append_single (l : List Step) (st : Step) :
    runState (l ++ [st]) = (stepRun st (runState l)).1 := by
  simp only [runState, run, runFrom_append, runFrom_singleton]

/-- Each step leaves the wheel accumulator unchanged (subscription
callbacks) or advances it by omega times dt, twice (the tick). -/
lemma stepRun_wheel (st : Step) (s : RunTurtleState) :
    (stepRun st s).1.wheel_pos = s.wheel_pos ∨
    (stepRun st s).1.wheel_pos = s.wheel_pos + s.wheel_omg * s.dt + s.wheel_omg * s.dt := by
  cases st with
  | tick => right; simp [stepRun, timer_callback]
  | goal d => left; simp [stepRun, update_goalpose]
  | turtle d => left; simp [stepRun, update_turtlepose]
  | tilt d => left; simp [stepRun, update_tilt]

/-- n consecutive ticks advance the wheel accumulator by n times twice
omega times dt. -/
lemma runFrom_replicate_tick_wheel (n : ℕ) (s : RunTurtleState) :
    (runFrom s (List.replicate n Step.tick)).1.wheel_pos =
      s.wheel_pos + n * (2 * (s.wheel_omg * s.dt)) := by
  induction n generalizing s with
  | zero => simp [runFrom]
  | succ n ih =>
    simp only [List.replicate_succ, runFrom, stepRun]
    rw [ih]
    have h1 : (timer_callback s).1.wheel_pos =
        s.wheel_pos + s.wheel_omg * s.dt + s.wheel_omg * s.dt := by
      simp [timer_callback]
    have h2 : (timer_callback s).1.wheel_omg = s.wheel_omg := by
      simp [timer_callback]
    have h3 : (timer_callback s).1.dt = s.dt := by
      simp [timer_callback]
    rw [h1, h2, h3]
    push_cast
    ring

/-- C4: each tick advances the wheel accumulator by omega times dt exactly
twice, a total increment of 2 omega dt; across all executions the
accumulator never decreases at any step and is unbounded over executions. -/
theorem C4_wheel_accumulator (l : List Step) :
    (runState (l ++ [Step.tick])).wheel_pos =
      (runState l).wheel_pos +
        (runState l).wheel_omg * (runState l).dt +
        (runState l).wheel_omg * (runState l).dt ∧
    (∀ st : Step, (runState l).wheel_pos ≤ (runState (l ++ [st])).wheel_pos) ∧
    (∀ M : ℝ, ∃ l' : List Step, M < (runState l').wheel_pos) := by
  have hconst := runFrom_const l initState
  have homg : (runState l).wheel_omg = 0.8 := by
    simp only [runState, run]
    rw [hconst.1]
    simp [initState]
  have hdt : (runState l).dt = 1 / 100 := by
    simp only [runState, run]
    rw [hconst.2.1]
    simp [initState]
    norm_num
  refine ⟨?_, ?_, ?_⟩
  · rw [runState_append_single]
    simp [stepRun, timer_callback]
  · intro st
    rw [runState_append_single]
    rcases stepRun_wheel st (runState l) with h | h
    · rw [h]
    · rw [h, homg, hdt]
      have hp : (0 : ℝ) ≤ 0.8 * (1 / 100) := by norm_num
      linarith
  · intro M
    obtain ⟨n, hn⟩ := exists_nat_gt (M / 0.016)
    refine ⟨List.replicate n Step.tick, ?_⟩
    have h := runFrom_replicate_tick_wheel n initState
    have hw : (runState (List.replicate n Step.tick)).wheel_pos =
        (n : ℝ) * 0.016 := by
      simp only [runState, run]
      rw [h]
      simp [initState]
      norm_num
    rw [hw]
    have h016 : (0 : ℝ) < 0.016 := by norm_num
    calc M = M / 0.016 * 0.016 := by field_simp
    _ < (n : ℝ) * 0.016 := by
        exact mul_lt_mul_of_pos_right hn h016

/-- The sum of squares of r w cos t and r w sin t is the square of r w. -/
lemma speed_sq (r w t : ℝ) :
    (r * w * Real.cos t) ^ 2 + (r * w * Real.sin t) ^ 2 = (r * w) ^ 2 := by
  have h := Real.sin_sq_add_cos_sq t
  nlinarith [h]

/-- The squared-speed invariant is preserved by every step. -/
lemma stepRun_speed (st : Step) (s : RunTurtleState)
    (h : s.vx ^ 2 + s.vy ^ 2 = (s.wheel_radius * s.wheel_omg) ^ 2) :
    (stepRun st s).1.vx ^ 2 + (stepRun st s).1.vy ^ 2 =
      ((stepRun st s).1.wheel_radius * (stepRun st s).1.wheel_omg) ^ 2 := by
  cases st with
  | tick => simp [stepRun, timer_callback, speed_sq]
  | goal d => simpa [stepRun, update_goalpose] using h
  | turtle d => simpa [stepRun, update_turtlepose] using h
  | tilt d => simpa [stepRun, update_tilt] using h

/-- The squared-speed invariant is preserved by whole runs. -/
lemma runFrom_speed (l : List Step) (s : RunTurtleState)
    (h : s.vx ^ 2 + s.vy ^ 2 = (s.wheel_radius * s.wheel_omg) ^ 2) :
    (runFrom s l).1.vx ^ 2 + (runFrom s l).1.vy ^ 2 =
      ((runFrom s l).1.wheel_radius * (runFrom s l).1.wheel_omg) ^ 2 := by
  induction l generalizing s with
  | nil => simpa [runFrom] using h
  | cons st l ih =>
    simp only [runFrom]
    exact ih _ (stepRun_speed st s h)

/-- C7: after each tick's velocity refresh, vx and vy are r omega cos theta
and r omega sin theta for the fresh heading, and in every reachable state
the squared speed vx^2 + vy^2 equals (r omega)^2 — constant linear speed. -/
theorem C7_constant_speed (l : List Step) :
    ((runState l).vx ^ 2 + (runState l).vy ^ 2 =
      ((runState l).wheel_radius * (runState l).wheel_omg) ^ 2) ∧
    (∀ s : RunTurtleState,
      (timer_callback s).1.vx =
        s.wheel_radius * s.wheel_omg * Real.cos ((timer_callback s).1.theta) ∧
      (timer_callback s).1.vy =
        s.wheel_radius * s.wheel_omg * Real.sin ((timer_callback s).1.theta)) := by
  constructor
  · have hinit : initState.vx ^ 2 + initState.vy ^ 2 =
        (initState.wheel_radius * initState.wheel_omg) ^ 2 := by
      simp [initState]
    simpa [runState, run] using runFrom_speed l initState hinit
  · intro s
    constructor <;> simp [timer_callback]

/-- The property that an event carries no angular rate: odometry twists and
velocity commands have a zero angular z component; other events trivially
satisfy it. -/
def Ev.angularZero : Ev → Prop
  | .odom m => m.twist_angular_z = 0
  | .cmdVel m => m.angular_z = 0
  | _ => True

/-- Forall distributes over list append. -/
lemma forall_append_ev {P : Ev → Prop} {l1 l2 : List Ev}
    (h1 : l1.Forall P) (h2 : l2.Forall P) : (l1 ++ l2).Forall P := by
  rw [List.forall_iff_forall_mem] at h1 h2 ⊢
  intro x hx
  rcases List.mem_append.mp hx with h | h
  exacts [h1 x h, h2 x h]

/-- From a state with zero swivel rate, every run keeps the swivel rate zero
and publishes only zero angular rates. -/
lemma runFrom_swivel (l : List Step) (s : RunTurtleState) (h : s.swivel_omg = 0) :
    (runFrom s l).1.swivel_omg = 0 ∧ (runFrom s l).2.Forall Ev.angularZero := by
  induction l generalizing s with
  | nil => simp [runFrom, h, List.Forall]
  | cons st l ih =>
    have hstep : (stepRun st s).1.swivel_omg = 0 := by
      rw [(stepRun_const st s).2.2.2.2.2.1, h]
    have hev : (stepRun st s).2.Forall Ev.angularZero := by
      cases st with
      | tick => simp [stepRun, timer_callback, turtle_twist, Ev.angularZero, h]
      | goal d => simp [stepRun, update_goalpose, List.Forall]
      | turtle d => simp [stepRun, update_turtlepose, List.Forall]
      | tilt d => simp [stepRun, update_tilt, List.Forall]
    obtain ⟨h1, h2⟩ := ih _ hstep
    simp only [runFrom]
    exact ⟨h1, forall_append_ev hev h2⟩

/-- C10: the published angular rate is identically zero — in every execution
the reached state has swivel rate 0, and every odometry twist and velocity
command in the trace carries angular z equal to 0. -/
theorem C10_angular_rate_zero (l : List Step) :
    (runState l).swivel_omg = 0 ∧ (runTrace l).Forall Ev.angularZero := by
  have h := runFrom_swivel l initState (by norm_num [initState])
  refine ⟨by simpa [runState, run] using h.1, ?_⟩
  have hinit : initEvents.Forall Ev.angularZero := by
    simp [initEvents, Ev.angularZero, List.Forall]
  simpa [runTrace, run] using forall_append_ev hinit h.2

/-- No callback broadcasts a static transform. -/
lemma stepRun_no_static (st : Step) (s : RunTurtleState) :
    (stepRun st s).2.filter Ev.isStaticTF = [] := by
  cases st with
  | tick => simp [stepRun, timer_callback, Ev.isStaticTF]
  | goal d => simp [stepRun, update_goalpose]
  | turtle d => simp [stepRun, update_turtlepose]
  | tilt d => simp [stepRun, update_tilt]

/-- No run after startup broadcasts a static transform. -/
lemma runFrom_no_static (l : List Step) (s : RunTurtleState) :
    (runFrom s l).2.filter Ev.isStaticTF = [] := by
  induction l generalizing s with
  | nil => simp [runFrom]
  | cons st l ih =>
    simp only [runFrom, List.filter_append]
    rw [stepRun_no_static, ih]
    rfl

/-- C6: the static world-to-odom transform appears exactly once in any
execution's trace, namely the copy broadcast at startup with translation
(5.55, 5.55, 0) and the identity rotation, and the stored offset fields are
never changed by any subsequent tick or update handler. -/
theorem C6_static_transform_once (l : List Step) :
    (runTrace l).filter Ev.isStaticTF = [Ev.staticTF world_odom_tf] ∧
    world_odom_tf.frame_id = "world" ∧ world_odom_tf.child_frame_id = "odom" ∧
    world_odom_tf.tx = 5.55 ∧ world_odom_tf.ty = 5.55 ∧ world_odom_tf.tz = 0 ∧
    world_odom_tf.rotation = { qx := 0, qy := 0, qz := 0, qw := 1 } ∧
    (runState l).world_odom_x = 5.55 ∧
    (runState l).world_odom_y = 5.55 ∧
    (runState l).world_odom_z = 0 := by
  have hc := runFrom_const l initState
  refine ⟨?_, rfl, rfl, rfl, rfl, rfl, rfl, ?_, ?_, ?_⟩
  · simp only [runTrace, run, List.filter_append]
    rw [runFrom_no_static]
    simp [initEvents, Ev.isStaticTF]
  · simp only [runState, run]
    rw [hc.2.2.2.2.2.2.1]
    simp [initState]
  · simp only [runState, run]
    rw [hc.2.2.2.2.2.2.2.1]
    simp [initState]
  · simp only [runState, run]
    rw [hc.2.2.2.2.2.2.2.2.1]
    simp [initState]

/-- C5: the zero-angle axis-angle quaternion is the identity (0, 0, 0, 1)
regardless of axis, and the dynamic odom-to-base_link transform emitted by
each tick carries the post-integration translation (x, y, 0) and exactly
that identity rotation. -/
theorem C5_dynamic_transform_identity (s : RunTurtleState) :
    (∀ v : ℝ × ℝ × ℝ,
      angle_axis_to_quaternion 0 v = { qx := 0, qy := 0, qz := 0, qw := 1 }) ∧
    (timer_callback s).2[1]? = some (Ev.dynamicTF
      { frame_id := "odom", child_frame_id := "base_link"
        tx := s.x + s.vx * s.dt, ty := s.y + s.vy * s.dt, tz := 0
        rotation := { qx := 0, qy := 0, qz := 0, qw := 1 } }) := by
  have hq : ∀ v : ℝ × ℝ × ℝ,
      angle_axis_to_quaternion 0 v = { qx := 0, qy := 0, qz := 0, qw := 1 } := by
    intro v
    simp [angle_axis_to_quaternion]
  refine ⟨hq, ?_⟩
  simp [timer_callback, hq]

/-- For positive q the arctangent lies strictly below q. -/
lemma arctan_lt_self_of_pos {q : ℝ} (hq : 0 < q) : Real.arctan q < q := by
  have h0 : 0 < Real.arctan q := by
    have h := Real.arctan_strictMono hq
    rwa [Real.arctan_zero] at h
  have h2 : Real.arctan q < Real.pi / 2 := Real.arctan_lt_pi_div_two q
  have h3 := Real.lt_tan h0 h2
  rwa [Real.tan_arctan] at h3

/-- The heading computed by the first tick after startup, in closed form:
the target sits at (3.45, 1.45) in the odom frame and the first tick has
already advanced x by 0.25888 times dt. -/
lemma first_tick_theta :
    (timer_callback initState).1.theta = Real.arctan (1.45 / 3.4474112) := by
  have h : (timer_callback initState).1.theta =
      atan2 (initState.targetY - (initState.y + initState.vy * initState.dt))
            (initState.targetX - (initState.x + initState.vx * initState.dt)) := by
    simp [timer_callback]
  have e1 : initState.targetY - (initState.y + initState.vy * initState.dt) = 1.45 := by
    simp [initState]
    norm_num
  have e2 : initState.targetX - (initState.x + initState.vx * initState.dt) = 3.4474112 := by
    simp [initState]
    norm_num
  rw [h, e1, e2, atan2_of_x_pos (by norm_num)]

/-- Numeric upper bound for the first-tick heading. -/
lemma first_tick_theta_lt : Real.arctan (1.45 / 3.4474112) < 0.43 := by
  have h := arctan_lt_self_of_pos (show (0:ℝ) < 1.45 / 3.4474112 by norm_num)
  have h2 : (1.45 : ℝ) / 3.4474112 < 0.43 := by norm_num
  linarith

/-- Numeric lower bound for the first-tick heading. -/
lemma first_tick_theta_gt : (0.38 : ℝ) < Real.arctan (1.45 / 3.4474112) := by
  rw [Real.arctan_eq_arcsin]
  set q : ℝ := 1.45 / 3.4474112 with hqdef
  have hq : (0:ℝ) < q := by rw [hqdef]; norm_num
  have hs_lt : Real.sqrt (1 + q ^ 2) < 1.085 := by
    rw [Real.sqrt_lt' (by norm_num)]
    rw [hqdef]
    norm_num
  have hs_pos : 0 < Real.sqrt (1 + q ^ 2) := Real.sqrt_pos.mpr (by positivity)
  have ht_pos : 0 < q / Real.sqrt (1 + q ^ 2) := div_pos hq hs_pos
  have ht_le1 : q / Real.sqrt (1 + q ^ 2) ≤ 1 := by
    rw [div_le_one hs_pos]
    calc q = Real.sqrt (q ^ 2) := (Real.sqrt_sq hq.le).symm
    _ ≤ Real.sqrt (1 + q ^ 2) := Real.sqrt_le_sqrt (by nlinarith)
  have harc : q / Real.sqrt (1 + q ^ 2) < Real.arcsin (q / Real.sqrt (1 + q ^ 2)) := by
    have h0 : 0 < Real.arcsin (q / Real.sqrt (1 + q ^ 2)) := Real.arcsin_pos.mpr ht_pos
    have h1 := Real.sin_lt h0
    rwa [Real.sin_arcsin (by linarith) ht_le1] at h1
  have hlow : (0.38 : ℝ) < q / Real.sqrt (1 + q ^ 2) := by
    rw [lt_div_iff₀ hs_pos]
    calc (0.38 : ℝ) * Real.sqrt (1 + q ^ 2) < 0.38 * 1.085 := by nlinarith [hs_lt, hs_pos]
    _ < q := by rw [hqdef]; norm_num
  linarith

/-- C2 (recording the code bug): a goal update stores the message into the
goalpose attribute, but the heading computation reads only the constant
targetX and targetY fields, which the update leaves untouched, so the
subsequent tick's heading is identical with or without the update.
Concretely: after startup and a goal update to (1, 2), the next tick's
heading is not the bearing toward (1, 2). -/
theorem C2_goal_update_ignored :
    (∀ (s : RunTurtleState) (d : PoseStampedMsg),
      (update_goalpose s d).1.goalpose = d ∧
      (update_goalpose s d).1.targetX = s.targetX ∧
      (update_goalpose s d).1.targetY = s.targetY ∧
      (timer_callback (update_goalpose s d).1).1.theta = (timer_callback s).1.theta) ∧
    (timer_callback (update_goalpose initState
        { x := Fl.finite 1, y := Fl.finite 2 }).1).1.theta ≠
      atan2 ((2 : ℝ) - (initState.y + initState.vy * initState.dt))
            ((1 : ℝ) - (initState.x + initState.vx * initState.dt)) := by
  have hgen : ∀ (s : RunTurtleState) (d : PoseStampedMsg),
      (update_goalpose s d).1.goalpose = d ∧
      (update_goalpose s d).1.targetX = s.targetX ∧
      (update_goalpose s d).1.targetY = s.targetY ∧
      (timer_callback (update_goalpose s d).1).1.theta = (timer_callback s).1.theta := by
    intro s d
    refine ⟨rfl, rfl, rfl, ?_⟩
    simp [update_goalpose, timer_callback]
  refine ⟨hgen, ?_⟩
  have hL : (timer_callback (update_goalpose initState
      { x := Fl.finite 1, y := Fl.finite 2 }).1).1.theta =
      Real.arctan (1.45 / 3.4474112) := by
    rw [(hgen initState { x := Fl.finite 1, y := Fl.finite 2 }).2.2.2, first_tick_theta]
  have e1 : (2 : ℝ) - (initState.y + initState.vy * initState.dt) = 2 := by
    simp [initState]
  have e2 : (1 : ℝ) - (initState.x + initState.vx * initState.dt) = 0.9974112 := by
    simp [initState]
    norm_num
  rw [hL, e1, e2, atan2_of_x_pos (by norm_num)]
  intro hcontra
  have := Real.arctan_injective hcontra
  norm_num at this

/-- C8 counterexample: a goal update whose coordinates are non-finite (NaN
and infinity) is not rejected — it is stored verbatim, replacing the
previously stored finite value, and no warning event is emitted. -/
theorem C8_counterexample :
    (update_goalpose initState { x := Fl.nan, y := Fl.inf }).1.goalpose =
      { x := Fl.nan, y := Fl.inf } ∧
    (update_goalpose initState { x := Fl.nan, y := Fl.inf }).2 = [] ∧
    Fl.isFinite Fl.nan = false ∧
    Fl.isFinite Fl.inf = false ∧
    initState.goalpose ≠ { x := Fl.nan, y := Fl.inf } := by
  refine ⟨rfl, rfl, rfl, rfl, ?_⟩
  have h : initState.goalpose = { x := Fl.finite 0, y := Fl.finite 0 } := by
    simp [initState]
  rw [h]
  simp

/-- C8 amended: inbound goal and turtle-pose updates are stored
unconditionally — whatever the coordinates, finite or not, the message
replaces the stored field, no warning or other event is emitted, and the
target fields that the tick actually reads are untouched. -/
theorem C8_updates_unvalidated (s : RunTurtleState) (d : PoseStampedMsg)
    (d2 : TurtlePoseMsg) :
    (update_goalpose s d).1.goalpose = d ∧
    (update_goalpose s d).2 = [] ∧
    (update_turtlepose s d2).1.turtlepose = some d2 ∧
    (update_turtlepose s d2).2 = [] ∧
    (update_goalpose s d).1.targetX = s.targetX ∧
    (update_goalpose s d).1.targetY = s.targetY := by
  exact ⟨rfl, rfl, rfl, rfl, rfl, rfl⟩

/-- C9 counterexample: in the spec's scenario (offset (5.55, 5.55), goal
(9, 7), radius 0.3236, omega 0.8, dt 0.01), the heading after one tick is
more than a quarter radian away from the claimed 0.6847 rad — it is in fact
below 0.43 rad. -/
theorem C9_counterexample :
    1 / 4 < |(timer_callback initState).1.theta - 0.6847| := by
  rw [first_tick_theta]
  have h := first_tick_theta_lt
  rw [lt_abs]
  right
  linarith

/-- C9 amended: with offset (5.55, 5.55, 0), world goal (9, 7), wheel radius
0.3236, omega 0.8 and dt 0.01, one tick from the initial state moves the
position by (vx dt, vy dt) with vx equal to r omega cos theta at the initial
heading, and the new heading equals arctan of 1.45 / (3.45 - 0.0025888),
approximately 0.398 rad (strictly between 0.38 and 0.43), not 0.6847 rad. -/
theorem C9_scenario :
    initState.world_odom_x = 5.55 ∧ initState.world_odom_y = 5.55 ∧
    initState.world_odom_z = 0 ∧
    initState.world_targetX = 9 ∧ initState.world_targetY = 7 ∧
    initState.wheel_radius = 0.3236 ∧ initState.wheel_omg = 0.8 ∧
    initState.dt = 0.01 ∧
    (timer_callback initState).1.x - initState.x = initState.vx * initState.dt ∧
    (timer_callback initState).1.y - initState.y = initState.vy * initState.dt ∧
    initState.vx =
      initState.wheel_radius * initState.wheel_omg * Real.cos initState.theta ∧
    (timer_callback initState).1.theta = Real.arctan (1.45 / 3.4474112) ∧
    0.38 < (timer_callback initState).1.theta ∧
    (timer_callback initState).1.theta < 0.43 := by
  refine ⟨rfl, rfl, rfl, rfl, rfl, by norm_num [initState], rfl, ?_, ?_, ?_, ?_,
    first_tick_theta, ?_, ?_⟩
  · simp [initState]
    norm_num
  · simp [timer_callback]
  · simp [timer_callback]
  · simp [initState]
  · rw [first_tick_theta]
    exact first_tick_theta_gt
  · rw [first_tick_theta]
    exact first_tick_theta_lt

end TurtleBrick
